import Mathlib

/-!
Verification development for the dataset-runs bookkeeping framework
(`fiftyone/core/runs.py`) and the 3D scene-graph value objects
(`fiftyone/core/threed/{lights,mesh,pointcloud}.py`).

The Python code is shallowly embedded: the per-dataset document store and the
per-dataset results cache become explicit state threaded through each
operation, `raise` becomes `Except.error` (paired with the state as it stands
when the exception propagates), and the dynamic Python class machinery
(`etau.get_class`, `issubclass`, the `method` property of each config class)
becomes an explicit environment `Env` of oracles over fully-qualified class
names.
-/

/-! ## Dict model

Python `dict`s keyed by strings are modelled as association lists with unique
keys.  `alSet` removes the old binding and conses the new one; a Python dict
keeps the insertion position of an existing key, but key *order* is not
observable through any operation modelled here (`list_runs` sorts its output),
so this is an equivalent dict model. -/

abbrev AssocList (β : Type) := List (String × β)

def alLookup {β : Type} (m : AssocList β) (k : String) : Option β :=
  List.lookup k m

def alErase {β : Type} (m : AssocList β) (k : String) : AssocList β :=
  m.filter (fun p => !(p.1 == k))

def alSet {β : Type} (m : AssocList β) (k : String) (v : β) : AssocList β :=
  (k, v) :: alErase m k

def alKeys {β : Type} (m : AssocList β) : List String :=
  m.map Prod.fst

def alContains {β : Type} (m : AssocList β) (k : String) : Bool :=
  (alLookup m k).isSome

instance {ε α : Type} [DecidableEq ε] [DecidableEq α] : DecidableEq (Except ε α) := fun a b =>
  match a, b with
  | .ok x, .ok y =>
    if h : x = y then .isTrue (by rw [h]) else .isFalse (by intro hc; cases hc; exact h rfl)
  | .error x, .error y =>
    if h : x = y then .isTrue (by rw [h]) else .isFalse (by intro hc; cases hc; exact h rfl)
  | .ok _, .error _ => .isFalse (by intro hc; cases hc)
  | .error _, .ok _ => .isFalse (by intro hc; cases hc)

/-! ## Errors

Every error raised by `runs.py` is a `ValueError` or `KeyError` distinguished
by its message; the constructors below carry the data interpolated into each
message.  `versionSkew` is the distinct "The run used fiftyone==X but you are
currently using fiftyone==Y; we recommend that you re-run the method" error:
it names both the stored and the running version. -/

inductive RunError where
  | invalidKey (key : String)
  | alreadyExists (key : String)
  | typeMismatch (key existingCls newCls : String)
  | noSuchRun (key : String)
  | keyError (k : String)
  | classResolution (cls : String)
  | versionSkew (key : String) (docVersion : Option String) (curVersion : String)
  | alreadyHasResults (key : String)
deriving DecidableEq

/-! ## Environment

Oracles for the parts of the Python runtime the code calls into:
`version` is `foc.VERSION`, `now` the registration timestamp,
`resolvable` says which fully-qualified class names `etau.get_class`
resolves, `methodOf` gives the `method` property of a resolvable config
class, and `isSubclass` is `issubclass` on the resolved `Run` classes. -/

structure Env where
  version : String
  now : Nat
  resolvable : String → Bool
  methodOf : String → String
  isSubclass : String → String → Bool

/-! ## RunConfig / RunInfo / RunDocument / RunResults values -/

/-- A `RunConfig` instance: its concrete class is identified by the
fully-qualified name `cls`; `method` is the class's `method` property and
`fields` the subclass-specific attributes.  Field values are modelled as
strings. -/
structure RunConfigV where
  method : String
  cls : String
  fields : AssocList String
deriving DecidableEq

/-- `RunConfig.serialize`: `attributes()` fixes the order "method", "cls",
then the subclass-declared fields. -/
def RunConfigV.serialize (c : RunConfigV) : AssocList String :=
  [("method", c.method), ("cls", c.cls)] ++ c.fields

/-- `RunConfig.run_cls` resolves `self.cls[: -len("Config")]`, i.e. the class
name with its last six characters removed. -/
def strDropRight (s : String) (n : Nat) : String :=
  ⟨s.data.take (s.data.length - n)⟩

/-- `RunConfig.from_dict`: pops `"method"` (a `KeyError` if absent), pops and
resolves `"cls"` (an error if the name does not resolve), and forwards the
remaining entries to the resolved class's constructor. -/
def runConfigFromDict (env : Env) (d : AssocList String) : Except RunError RunConfigV :=
  match alLookup d ("method") with
  | none => .error (.keyError ("method"))
  | some _ =>
    let d1 := alErase d ("method")
    match alLookup d1 ("cls") with
    | none => .error (.keyError ("cls"))
    | some clsName =>
      if env.resolvable clsName then
        .ok { method := env.methodOf clsName, cls := clsName, fields := alErase d1 ("cls") }
      else
        .error (.classResolution clsName)

/-- A persisted `RunDocument`: key, version, timestamp, serialized config,
serialized view stages, and the optional GridFS results blob (here the decoded
JSON dict it holds, or `none` when no results were saved). -/
structure RunDoc where
  key : String
  version : Option String
  timestamp : Nat
  config : AssocList String
  viewStages : List String
  results : Option (AssocList String)
deriving DecidableEq

/-- A `RunInfo` instance. -/
structure RunInfoV where
  key : String
  version : Option String
  timestamp : Nat
  config : RunConfigV
deriving DecidableEq

/-- `RunInfo._from_doc`: rebuilds the info record, deserializing the stored
config dict (which can fail). -/
def runInfoFromDoc (env : Env) (doc : RunDoc) : Except RunError RunInfoV :=
  match runConfigFromDict env doc.config with
  | .error e => .error e
  | .ok cfg =>
    .ok { key := doc.key, version := doc.version, timestamp := doc.timestamp, config := cfg }

/-- A `RunResults` instance: concrete class tag, run key (`_key`, cleared to
`none` by `delete_run`), and its serializable payload. -/
structure RunResultsV where
  cls : String
  key : Option String
  data : AssocList String
deriving DecidableEq

/-- `RunResults.serialize`: `attributes()` puts `"cls"` first. -/
def RunResultsV.serialize (r : RunResultsV) : AssocList String :=
  [("cls", r.cls)] ++ r.data

/-- `RunResults.from_dict`: polymorphic dispatch on the stored `"cls"` tag
(a `KeyError` if absent, a resolution error if the tag does not resolve),
then the concrete subtype rebuilds itself from the remaining entries. -/
def runResultsFromDict (env : Env) (d : AssocList String) (_config : RunConfigV)
    (key : String) : Except RunError RunResultsV :=
  match alLookup d ("cls") with
  | none => .error (.keyError ("cls"))
  | some clsName =>
    if env.resolvable clsName then
      .ok { cls := clsName, key := some key, data := alErase d ("cls") }
    else
      .error (.classResolution clsName)

/-! ## Per-dataset state -/

/-- The state a `Run`'s classmethods act on: the dataset document's mapping
from run key to `RunDocument`, and the dataset's in-process results cache. -/
structure DatasetState where
  runDocs : AssocList RunDoc
  resultsCache : AssocList (Option RunResultsV)
deriving DecidableEq

/-! ## Run lifecycle operations

Each operation returns the raised exception or result, paired with the state
as it stands when the operation returns or the exception propagates (Python
mutates in place, so mutations made before a `raise` persist). -/

/-- `list_runs` with no filters returns `sorted(run_docs.keys())`. -/
def listRunsAll (st : DatasetState) : List String :=
  List.insertionSort (· ≤ ·) (alKeys st.runDocs)

/-- `versionGate` captures the shared error-translation pattern of
`get_run_info` and `load_run_results`: when deserialization fails, re-raise
the original error if the stored version equals the running version, else
raise the version-skew error naming both versions. -/
def versionGate (key : String) (docVersion : Option String) (curVersion : String)
    (e : RunError) : RunError :=
  if docVersion = some curVersion then e else .versionSkew key docVersion curVersion

/-- `Run._get_run_doc` followed by `RunInfo._from_doc` inside `get_run_info`'s
try/except. -/
def getRunInfo (env : Env) (st : DatasetState) (key : String) : Except RunError RunInfoV :=
  match alLookup st.runDocs key with
  | none => .error (.noSuchRun key)
  | some doc =>
    match runInfoFromDoc env doc with
    | .ok info => .ok info
    | .error e => .error (versionGate key doc.version env.version e)

/-- ASCII form of Python's `str.isidentifier`: nonempty, first character a
letter or underscore, the rest letters, digits or underscores. -/
def pyIsIdentifier (s : String) : Bool :=
  match s.data with
  | [] => false
  | c :: cs => (c.isAlpha || c == '_') && cs.all (fun d => d.isAlphanum || d == '_')

/-- `Run.validate_run`: rejects malformed keys; accepts fresh keys; rejects a
clash with `overwrite=False`; with `overwrite=True`, lets the user overwrite
silently when the existing info cannot be loaded (the bare `except`), and
rejects a config of a different concrete type.  The base `_validate_run` hook
is a no-op. -/
def validateRun (env : Env) (st : DatasetState) (cfg : RunConfigV) (key : String)
    (overwrite : Bool) : Except RunError Unit :=
  if !(pyIsIdentifier key) then .error (.invalidKey key)
  else if key ∉ listRunsAll st then .ok ()
  else if !overwrite then .error (.alreadyExists key)
  else
    match getRunInfo env st key with
    | .error _ => .ok ()
    | .ok existing =>
      if cfg.cls ≠ existing.config.cls then
        .error (.typeMismatch key existing.config.cls cfg.cls)
      else .ok ()

/-- `Run.delete_run`: looks up the run doc (raising if absent), attempts the
best-effort `cleanup()` hook (its result and any exception are discarded),
then removes the key from the run docs and the results cache and deletes the
persisted doc and blob. -/
def deleteRun (env : Env) (st : DatasetState) (key : String) :
    Except RunError Unit × DatasetState :=
  match alLookup st.runDocs key with
  | none => (.error (.noSuchRun key), st)
  | some _ =>
    let _hookInfo := getRunInfo env st key
    (.ok (), { runDocs := alErase st.runDocs key, resultsCache := alErase st.resultsCache key })

/-- Writes the fresh `RunDocument` and stores it under the key (the tail of
`Run.save_run_info`).  The serialized view stages come from the collaborating
view engine, not from this code, and are modelled as empty. -/
def saveRunInfoWrite (st : DatasetState) (info : RunInfoV) :
    Except RunError Unit × DatasetState :=
  let doc : RunDoc :=
    { key := info.key, version := info.version, timestamp := info.timestamp,
      config := RunConfigV.serialize info.config, viewStages := [], results := none }
  (.ok (), { st with runDocs := alSet st.runDocs info.key doc })

/-- `Run.save_run_info`: deletes any existing run under the key when
overwriting (raising the conflict error when not), then persists the new
document. -/
def saveRunInfo (env : Env) (st : DatasetState) (info : RunInfoV) (overwrite : Bool) :
    Except RunError Unit × DatasetState :=
  if info.key ∈ listRunsAll st then
    if overwrite then
      match deleteRun env st info.key with
      | (Except.ok _, st1) => saveRunInfoWrite st1 info
      | (Except.error e, st1) => (.error e, st1)
    else (.error (.alreadyExists info.key), st)
  else saveRunInfoWrite st info

/-- `Run.register_run`: returns immediately when `key is None`; otherwise
validates, builds a `RunInfo` at the current version and timestamp, and saves
it (with `save_run_info`'s default `overwrite=True`). -/
def registerRun (env : Env) (st : DatasetState) (cfg : RunConfigV) (key : Option String)
    (overwrite : Bool) : Except RunError Unit × DatasetState :=
  match key with
  | none => (.ok (), st)
  | some k =>
    match validateRun env st cfg k overwrite with
    | .error e => (.error e, st)
    | .ok _ =>
      let info : RunInfoV :=
        { key := k, version := some env.version, timestamp := env.now, config := cfg }
      saveRunInfo env st info true

/-- `Run.update_run_key`: rejects an already-used new key before any
mutation; otherwise attempts the best-effort `rename()` hook (result and
exceptions discarded), pops the doc (a `KeyError` if absent), rebinds it
under the new key, and moves any cached results along (a cached `None` is
popped but not reinserted, since Python skips reinsertion for a falsy
`run_results`). -/
def updateRunKey (env : Env) (st : DatasetState) (key new_key : String) :
    Except RunError Unit × DatasetState :=
  if new_key ∈ listRunsAll st then
    (.error (.alreadyExists new_key), st)
  else
    let _hookInfo := getRunInfo env st key
    match alLookup st.runDocs key with
    | none => (.error (.keyError key), st)
    | some doc =>
      let doc1 := { doc with key := new_key }
      let runDocs1 := alSet (alErase st.runDocs key) new_key doc1
      let cache1 :=
        match alLookup st.resultsCache key with
        | none => st.resultsCache
        | some none => alErase st.resultsCache key
        | some (some r) =>
          alSet (alErase st.resultsCache key) new_key (some { r with key := some new_key })
      (.ok (), { runDocs := runDocs1, resultsCache := cache1 })

/-- `Run.update_run_config`: returns immediately when `key is None`;
otherwise `run_docs[key]` (a `KeyError` if absent) gets its config replaced
by the serialized new config. -/
def updateRunConfig (_env : Env) (st : DatasetState) (key : Option String)
    (cfg : RunConfigV) : Except RunError Unit × DatasetState :=
  match key with
  | none => (.ok (), st)
  | some k =>
    match alLookup st.runDocs k with
    | none => (.error (.keyError k), st)
    | some doc =>
      (.ok (), { st with runDocs := alSet st.runDocs k { doc with config := RunConfigV.serialize cfg } })

/-- `Run.save_run_results`: returns immediately when `key is None`;
`run_docs[key]` raises a `KeyError` if absent; existing results are deleted
when overwriting and raise the conflict error when not; the new blob (or
`None`) is written, and the results object is cached when `cache=True`. -/
def saveRunResults (_env : Env) (st : DatasetState) (key : Option String)
    (run_results : Option RunResultsV) (overwrite : Bool) (cache : Bool) :
    Except RunError Unit × DatasetState :=
  match key with
  | none => (.ok (), st)
  | some k =>
    match alLookup st.runDocs k with
    | none => (.error (.keyError k), st)
    | some doc =>
      if doc.results.isSome && !overwrite then
        (.error (.alreadyHasResults k), st)
      else
        let doc1 := { doc with results := run_results.map RunResultsV.serialize }
        let cache1 := if cache then alSet st.resultsCache k run_results else st.resultsCache
        (.ok (), { runDocs := alSet st.runDocs k doc1, resultsCache := cache1 })

/-- `Run.has_cached_run_results`: `key in results_cache`.  The key may be
`None` (e.g. after `delete_run` cleared a results object's `_key`); no string
key can equal it. -/
def hasCachedRunResults (st : DatasetState) (key : Option String) : Bool :=
  match key with
  | none => false
  | some k => alContains st.resultsCache k

/-- `Run.load_run_results`: prefers the cache (which may hold `None`); on a
miss reads the doc (raising if absent), returns `None` when no blob was
saved, loads the run info, rehydrates the results via the polymorphic
`from_dict` dispatch — applying the same version gate as `get_run_info` on
failure — and write-through caches the rehydrated object.  Credential loading
and view reconstruction are no-ops at this level. -/
def loadRunResults (env : Env) (st : DatasetState) (key : String) (cache : Bool) :
    Except RunError (Option RunResultsV) × DatasetState :=
  if cache && alContains st.resultsCache key then
    (Except.ok ((alLookup st.resultsCache key).join), st)
  else
    match alLookup st.runDocs key with
    | none => (.error (.noSuchRun key), st)
    | some doc =>
      match doc.results with
      | none => (.ok none, st)
      | some blob =>
        match getRunInfo env st key with
        | .error e => (.error e, st)
        | .ok info =>
          match runResultsFromDict env blob info.config key with
          | .error e => (.error (versionGate key doc.version env.version e), st)
          | .ok r =>
            let st1 :=
              if cache then { st with resultsCache := alSet st.resultsCache key (some r) } else st
            (.ok (some r), st1)

/-- `RunResults.save`: re-caches only when the key was already cached, and
always persists with `overwrite=True`. -/
def RunResultsV.save (env : Env) (st : DatasetState) (r : RunResultsV) :
    Except RunError Unit × DatasetState :=
  saveRunResults env st r.key (some r) true (hasCachedRunResults st r.key)

/-- `getattr(config, key, None)` as used by `list_runs` kwargs filtering:
`method` and `cls` are properties, other names are subclass fields, anything
else is `None`. -/
def configGetattr (cfg : RunConfigV) (attr : String) : Option String :=
  if attr == ("method") then some cfg.method
  else if attr == ("cls") then some cfg.cls
  else alLookup cfg.fields attr

/-- The filtering loop of `list_runs`: keys whose info fails to load are
skipped with a warning; the type filter resolves `config.run_cls` *outside*
the try block, so a resolution failure there propagates; the kwargs filter
drops keys where any requested attribute differs. -/
def listRunsFilterLoop (env : Env) (st : DatasetState) (type? : Option String)
    (kwargs : AssocList (Option String)) : List String → Except RunError (List String)
  | [] => .ok []
  | key :: rest =>
    match getRunInfo env st key with
    | .error _ => listRunsFilterLoop env st type? kwargs rest
    | .ok info =>
      let kwargsStep : Except RunError (List String) :=
        if !kwargs.isEmpty && kwargs.any (fun p => configGetattr info.config p.1 != p.2) then
          listRunsFilterLoop env st type? kwargs rest
        else
          match listRunsFilterLoop env st type? kwargs rest with
          | .error e => .error e
          | .ok keys => .ok (key :: keys)
      match type? with
      | some t =>
        let rc := strDropRight info.config.cls 6
        if !(env.resolvable rc) then .error (.classResolution rc)
        else if !(env.isSubclass rc t) then listRunsFilterLoop env st type? kwargs rest
        else kwargsStep
      | none => kwargsStep

/-- Key gathering of `list_runs`: a string `type` is resolved first (raising
if unresolvable); with a type or kwargs filter the loop runs, else all keys
are taken. -/
def listRunsKeys (env : Env) (st : DatasetState) (type? : Option String)
    (kwargs : AssocList (Option String)) : Except RunError (List String) :=
  match (match type? with
         | some t =>
           if env.resolvable t then Except.ok () else Except.error (RunError.classResolution t)
         | none => Except.ok ()) with
  | .error e => .error e
  | .ok _ =>
    if type?.isSome || !kwargs.isEmpty then
      listRunsFilterLoop env st type? kwargs (alKeys st.runDocs)
    else
      .ok (alKeys st.runDocs)

/-- `Run.list_runs`: the gathered keys, sorted. -/
def listRuns (env : Env) (st : DatasetState) (type? : Option String)
    (kwargs : AssocList (Option String)) : Except RunError (List String) :=
  match listRunsKeys env st type? kwargs with
  | .error e => .error e
  | .ok keys => .ok (List.insertionSort (· ≤ ·) keys)

/-- The `"cls"` tag stored in the existing run document for a key: the
concrete config type recorded for that run. -/
def existingConfigCls (st : DatasetState) (key : String) : Option String :=
  match alLookup st.runDocs key with
  | none => none
  | some doc => alLookup doc.config ("cls")

/-! ## 3D scene nodes

Python strings are character sequences; `str.lower`/`str.endswith` are
modelled on the character lists. -/

def pyLower (s : String) : String :=
  ⟨s.data.map Char.toLower⟩

def pyEndsWith (s suffix : String) : Bool :=
  suffix.data.isSuffixOf s.data

/-- Values appearing in a node's serialized dict.  Numbers are modelled as
rationals (only stored and emitted, never computed on here); `dict` holds a
nested serialized object such as a material. -/
inductive JVal where
  | str (v : String)
  | num (v : Rat)
  | boolean (v : Bool)
  | vec (v : List Rat)
  | dict (v : AssocList String)
  | null
deriving DecidableEq

/-- Modelled from the spec: the `Object3D` base class lives in
`object_3d.py`, which is not under `src/`.  Per the spec's data model, the
base `to_dict` emits the name/visibility/transform fields and each subtype
merges its `_to_dict_extra` dict into them; the base extension point itself
contributes no fields. -/
def object3DToDictExtra : List (String × JVal) := []

/-- Modelled from the spec: the field names the `Object3D` base `to_dict`
contributes (name, visibility, position, quaternion rotation, scale). -/
def object3DBaseDictKeys : List String :=
  ["name", "visible", "position", "quaternion", "scale"]

/-- The full set of field names emitted for a node: the base object's fields
merged with the subtype's `_to_dict_extra` contribution (keys are disjoint,
so the dict merge is concatenation). -/
def nodeDictKeys (extra : List (String × JVal)) : List String :=
  object3DBaseDictKeys ++ extra.map Prod.fst

/-- A constructed `ObjMesh`. -/
structure ObjMeshV where
  name : String
  obj_path : String
  mtl_path : Option String
deriving DecidableEq

/-- `ObjMesh.__init__`: requires `obj_path.lower()` to end with `.obj`, and a
given `mtl_path` to end with `.mtl` (this one *not* lower-cased in the
source). -/
def objMeshInit (name obj_path : String) (mtl_path : Option String) :
    Except String ObjMeshV :=
  if !(pyEndsWith (pyLower obj_path) (".obj")) then
    .error ("OBJ mesh must be a .obj file")
  else
    match mtl_path with
    | some m =>
      if !(pyEndsWith m (".mtl")) then .error ("OBJ material must be a .mtl file")
      else .ok { name, obj_path, mtl_path }
    | none => .ok { name, obj_path, mtl_path := none }

def objMeshToDictExtra (m : ObjMeshV) : List (String × JVal) :=
  [("obj_path", JVal.str m.obj_path),
   ("mtl_path", match m.mtl_path with | some p => JVal.str p | none => JVal.null)]

/-- A constructed `FBXMesh`; the source stores the fbx path in an attribute
named `gltf_path`. -/
structure FBXMeshV where
  name : String
  gltf_path : String
deriving DecidableEq

/-- `FBXMesh.__init__`: requires `fbx_path.lower()` to end with `.fbx`. -/
def fbxMeshInit (name fbx_path : String) : Except String FBXMeshV :=
  if !(pyEndsWith (pyLower fbx_path) (".fbx")) then
    .error ("FBX mesh must be a .fbx file")
  else .ok { name, gltf_path := fbx_path }

def fbxMeshToDictExtra (m : FBXMeshV) : List (String × JVal) :=
  [("fbx_path", JVal.str m.gltf_path)]

/-- A constructed `GLTFMesh`. -/
structure GLTFMeshV where
  name : String
  gltf_path : String
deriving DecidableEq

/-- `GLTFMesh.__init__`: requires `gltf_path.lower()` to end with `.gltf` or
`.glb`. -/
def gltfMeshInit (name gltf_path : String) : Except String GLTFMeshV :=
  if !(pyEndsWith (pyLower gltf_path) (".gltf") || pyEndsWith (pyLower gltf_path) (".glb")) then
    .error ("gLTF mesh must be a .gltf or .glb file")
  else .ok { name, gltf_path }

def gltfMeshToDictExtra (m : GLTFMeshV) : List (String × JVal) :=
  [("gltf_path", JVal.str m.gltf_path)]

/-- A constructed `PlyMesh`. -/
structure PlyMeshV where
  name : String
  ply_path : String
deriving DecidableEq

/-- `PlyMesh.__init__`: requires `ply_path.lower()` to end with `.ply`. -/
def plyMeshInit (name ply_path : String) : Except String PlyMeshV :=
  if !(pyEndsWith (pyLower ply_path) (".ply")) then
    .error ("PLY mesh must be a .ply file")
  else .ok { name, ply_path }

def plyMeshToDictExtra (m : PlyMeshV) : List (String × JVal) :=
  [("ply_path", JVal.str m.ply_path)]

/-- A constructed `StlMesh`. -/
structure StlMeshV where
  name : String
  stl_path : String
deriving DecidableEq

/-- `StlMesh.__init__`: requires `stl_path.lower()` to end with `.stl`. -/
def stlMeshInit (name stl_path : String) : Except String StlMeshV :=
  if !(pyEndsWith (pyLower stl_path) (".stl")) then
    .error ("STL mesh must be a .stl file")
  else .ok { name, stl_path }

def stlMeshToDictExtra (m : StlMeshV) : List (String × JVal) :=
  [("stl_path", JVal.str m.stl_path)]

/-- Modelled from the spec: `PointCloudMaterial` lives in `material_3d.py`,
which is not under `src/`; its default instance's `as_dict()` contents are
not specified there, so they are modelled as an unspecified fixed dict (the
claims only concern the point cloud's own top-level keys). -/
def pointCloudMaterialDefaultDict : AssocList String := []

/-- A constructed `PointCloud`.  `pre_transformed_pcd_path` models the
`hasattr`-guarded `_pre_transformed_pcd_path` attribute, absent at
construction. -/
structure PointCloudV where
  name : String
  pcd_path : String
  default_material : AssocList String
  flag_for_projection : Bool
  pre_transformed_pcd_path : Option String
deriving DecidableEq

/-- `PointCloud.__init__`: requires `pcd_path.lower()` to end with `.pcd`;
the material defaults to a fresh `PointCloudMaterial`. -/
def pointCloudInit (name pcd_path : String) (material : Option (AssocList String))
    (flag_for_projection : Bool) : Except String PointCloudV :=
  if !(pyEndsWith (pyLower pcd_path) (".pcd")) then
    .error ("Point cloud must be a .pcd file")
  else
    .ok { name, pcd_path, default_material := material.getD pointCloudMaterialDefaultDict,
          flag_for_projection, pre_transformed_pcd_path := none }

def pointCloudToDictExtra (p : PointCloudV) : List (String × JVal) :=
  [("pcdPath", JVal.str p.pcd_path),
   ("defaultMaterial", JVal.dict p.default_material),
   ("flagForProjection", JVal.boolean p.flag_for_projection)]
  ++ (match p.pre_transformed_pcd_path with
      | some q => [("preTransformedPcdPath", JVal.str q)]
      | none => [])

/-- A `Light` (also the state of an `AmbientLight`, which adds no
serialization of its own). -/
structure LightV where
  name : String
  visible : Bool
  color : String
  intensity : Rat
deriving DecidableEq

def lightToDictExtra (l : LightV) : List (String × JVal) :=
  object3DToDictExtra ++ [("color", JVal.str l.color), ("intensity", JVal.num l.intensity)]

/-- A `DirectionalLight`; `target` is emitted as `to_arr().tolist()`. -/
structure DirectionalLightV extends LightV where
  target : List Rat
deriving DecidableEq

def directionalLightToDictExtra (l : DirectionalLightV) : List (String × JVal) :=
  lightToDictExtra l.toLightV ++ [("target", JVal.vec l.target)]

/-- A `PointLight`. -/
structure PointLightV extends LightV where
  distance : Rat
  decay : Rat
deriving DecidableEq

def pointLightToDictExtra (l : PointLightV) : List (String × JVal) :=
  lightToDictExtra l.toLightV ++ [("distance", JVal.num l.distance), ("decay", JVal.num l.decay)]

/-- A `SpotLight`. -/
structure SpotLightV extends LightV where
  target : List Rat
  distance : Rat
  decay : Rat
  angle : Rat
  penumbra : Rat
deriving DecidableEq

def spotLightToDictExtra (l : SpotLightV) : List (String × JVal) :=
  lightToDictExtra l.toLightV ++
    [("target", JVal.vec l.target), ("distance", JVal.num l.distance),
     ("decay", JVal.num l.decay), ("angle", JVal.num l.angle),
     ("penumbra", JVal.num l.penumbra)]

/-- camelCase field name: no underscore, and an alphabetic first character is
lower case. -/
def isCamelCase (s : String) : Bool :=
  !(s.data.contains '_') &&
    (match s.data with
     | [] => true
     | c :: _ => c.isLower || !(c.isAlpha))

/-! ## Concrete instances used by the witnesses -/

/-- A small class environment: two config classes `AConfig`/`BConfig` whose
run classes `A`/`B` resolve, one results class, `issubclass` as name
equality. -/
def envW : Env :=
  { version := "1.0", now := 0,
    resolvable := fun s =>
      s == "AConfig" || s == "BConfig" || s == "A" || s == "B" || s == "ARunResults",
    methodOf := fun _ => "m",
    isSubclass := fun a b => a == b }

def cfgA : RunConfigV := { method := "m", cls := "AConfig", fields := [] }

def cfgB : RunConfigV := { method := "m", cls := "BConfig", fields := [] }

def st0 : DatasetState := { runDocs := [], resultsCache := [] }

def stAfterReg : DatasetState := (registerRun envW st0 cfgA (some ("alpha")) true).2

/-- A well-formed persisted doc for key `k` with an `AConfig` config. -/
def docK : RunDoc :=
  { key := "k", version := some ("1.0"), timestamp := 0,
    config := RunConfigV.serialize cfgA, viewStages := [], results := none }

def stC2w : DatasetState := { runDocs := [("k", docK)], resultsCache := [] }

/-- The `RunInfo` that `get_run_info` reconstructs from `docK`. -/
def infoC2w : RunInfoV :=
  { key := "k", version := some ("1.0"), timestamp := 0, config := cfgA }

/-- A doc whose stored config dict lacks the `"method"` entry, so
`RunConfig.from_dict` raises; its recorded concrete config type is
`AConfig`. -/
def docBad : RunDoc :=
  { key := "k", version := some ("1.0"), timestamp := 0,
    config := [("cls", "AConfig")], viewStages := [], results := none }

def stC2bad : DatasetState := { runDocs := [("k", docBad)], resultsCache := [] }

/-- A state holding a run under a key that is not a valid identifier (such
keys are reachable through `save_run_info` or `update_run_key`, which do not
validate). -/
def stC2x : DatasetState :=
  { runDocs := [("a-b", { docK with key := "a-b" })], resultsCache := [] }

def resW : RunResultsV := { cls := "ARunResults", key := some ("k"), data := [] }

def stC4 : DatasetState :=
  { runDocs := [("k", docK)], resultsCache := [("k", some resW)] }

def stC4after : DatasetState := (deleteRun envW stC4 ("k")).2

def stC8after : DatasetState := (RunResultsV.save envW stC4 resW).2

/-- A doc written by fiftyone 0.9 whose config dict lacks `"method"`. -/
def docC7a : RunDoc :=
  { key := "k", version := some ("0.9"), timestamp := 0,
    config := [("cls", "AConfig")], viewStages := [], results := none }

def stC7a : DatasetState := { runDocs := [("k", docC7a)], resultsCache := [] }

/-- A results blob lacking the `"cls"` tag, so `RunResults.from_dict`
raises. -/
def blobC7 : AssocList String := [("foo", "bar")]

/-- A doc written by fiftyone 0.9 whose config loads fine but whose results
blob does not. -/
def docC7b : RunDoc :=
  { key := "k", version := some ("0.9"), timestamp := 0,
    config := RunConfigV.serialize cfgA, viewStages := [], results := some blobC7 }

def stC7b : DatasetState := { runDocs := [("k", docC7b)], resultsCache := [] }

/-- The `RunInfo` that `get_run_info` reconstructs from `docC7b`. -/
def infoC7 : RunInfoV :=
  { key := "k", version := some ("0.9"), timestamp := 0, config := cfgA }

/-! ## Dict-model lemmas -/

theorem pyLower_data (s : String) : (pyLower s).data = s.data.map Char.toLower := rfl

theorem alLookup_alSet_self {β : Type} (m : AssocList β) (k : String) (v : β) :
    alLookup (alSet m k v) k = some v := by
  simp [alSet, alLookup, List.lookup]

theorem mem_alKeys_alSet_self {β : Type} (m : AssocList β) (k : String) (v : β) :
    k ∈ alKeys (alSet m k v) := by
  simp [alSet, alKeys]

theorem alLookup_alErase_self {β : Type} (m : AssocList β) (k : String) :
    alLookup (alErase m k) k = none := by
  induction m with
  | nil => rfl
  | cons p t ih =>
    by_cases h : p.1 = k
    · simpa [alErase, List.filter_cons, h] using ih
    · have hb : (p.1 == k) = false := by simp [h]
      have hb2 : (k == p.1) = false := by simp [Ne.symm h]
      simpa [alErase, List.filter_cons, hb, alLookup, List.lookup, hb2] using ih

theorem alContains_alErase_self {β : Type} (m : AssocList β) (k : String) :
    alContains (alErase m k) k = false := by
  simp [alContains, alLookup_alErase_self]

theorem not_mem_alKeys_alErase {β : Type} (m : AssocList β) (k : String) :
    k ∉ alKeys (alErase m k) := by
  simp only [alKeys, alErase, List.mem_map]
  rintro ⟨p, hp, rfl⟩
  have := (List.mem_filter.mp hp).2
  simp at this

theorem alLookup_eq_none_of_contains_false {β : Type} {m : AssocList β} {k : String}
    (h : alContains m k = false) : alLookup m k = none := by
  unfold alContains at h
  cases ho : alLookup m k with
  | none => rfl
  | some v => rw [ho] at h; simp at h

theorem mem_listRunsAll {st : DatasetState} {k : String} :
    k ∈ listRunsAll st ↔ k ∈ alKeys st.runDocs := by
  simp [listRunsAll]

theorem saveRunInfoWrite_mem_keys {st st' : DatasetState} {info : RunInfoV}
    (h : saveRunInfoWrite st info = (Except.ok (), st')) :
    info.key ∈ alKeys st'.runDocs := by
  simp only [saveRunInfoWrite] at h
  injection h with h1 h2
  subst h2
  exact mem_alKeys_alSet_self _ _ _

theorem saveRunInfo_mem_keys {env : Env} {st st' : DatasetState} {info : RunInfoV}
    {ow : Bool} (h : saveRunInfo env st info ow = (Except.ok (), st')) :
    info.key ∈ alKeys st'.runDocs := by
  simp only [saveRunInfo] at h
  split at h
  · split at h
    · split at h
      · exact saveRunInfoWrite_mem_keys h
      · simp at h
    · simp at h
  · exact saveRunInfoWrite_mem_keys h

/-- Claim C1: for every valid identifier key `k`, a successfully completed
`register_run(samples, k)` leaves `k` a member of the list returned by
`list_runs(samples)` with no type or kwargs filters. -/
theorem runs_C1 (env : Env) (st : DatasetState) (cfg : RunConfigV) (k : String)
    (ow : Bool) (st' : DatasetState)
    (h : registerRun env st cfg (some k) ow = (Except.ok (), st')) :
    listRuns env st' none [] = Except.ok (listRunsAll st') ∧ k ∈ listRunsAll st' := by
  refine ⟨rfl, ?_⟩
  rw [mem_listRunsAll]
  simp only [registerRun] at h
  split at h
  · simp at h
  · exact saveRunInfo_mem_keys h

/-- Witness for claim C1: registering key `alpha` on an empty dataset makes
it a member of the unfiltered run list. -/
theorem runs_C1_witness :
    listRuns envW stAfterReg none [] = Except.ok (listRunsAll stAfterReg) ∧
    ("alpha") ∈ listRunsAll stAfterReg :=
  runs_C1 envW st0 cfgA ("alpha") true stAfterReg (by decide)

/-- Claim C2 (amended): for every valid-identifier key `k` present in
`list_runs`, `validate_run` with `overwrite=False` raises the conflict
("already exists") error; with `overwrite=True`, whenever the existing run's
info loads successfully and its config's concrete type differs from the new
config's, it raises the type-mismatch error.  (As the counterexample shows,
when the existing info cannot be loaded the overwrite is permitted silently,
and a non-identifier existing key raises the invalid-key error rather than
the conflict error.) -/
theorem runs_C2 (env : Env) (st : DatasetState) (cfg : RunConfigV) (k : String)
    (hid : pyIsIdentifier k = true) (hmem : k ∈ listRunsAll st) :
    validateRun env st cfg k false = Except.error (RunError.alreadyExists k) ∧
    ∀ info, getRunInfo env st k = Except.ok info → info.config.cls ≠ cfg.cls →
      validateRun env st cfg k true =
        Except.error (RunError.typeMismatch k info.config.cls cfg.cls) := by
  constructor
  · simp [validateRun, hid, hmem]
  · intro info hinfo hne
    simp [validateRun, hid, hmem, hinfo, Ne.symm hne]

/-- Counterexample for claim C2 as stated.  First: a run stored under the
non-identifier key `a-b` makes `validate_run(overwrite=False)` raise the
invalid-key error, not the "already exists" conflict error.  Second: a run
whose stored config dict lacks the `"method"` entry cannot be loaded, so
`validate_run(overwrite=True)` returns successfully even though the stored
concrete config type `AConfig` differs from the new config's `BConfig`. -/
theorem runs_C2_cex :
    (("a-b") ∈ listRunsAll stC2x ∧
     validateRun envW stC2x cfgB ("a-b") false =
       Except.error (RunError.invalidKey ("a-b"))) ∧
    (("k") ∈ listRunsAll stC2bad ∧
     existingConfigCls stC2bad ("k") = some ("AConfig") ∧
     cfgB.cls = ("BConfig") ∧ ("AConfig" : String) ≠ ("BConfig") ∧
     validateRun envW stC2bad cfgB ("k") true = Except.ok ()) := by
  decide

/-- Witness for claim C2: with a loadable existing `AConfig` run under `k`,
re-registering with `overwrite=False` raises the conflict error and an
overwrite with a `BConfig` raises the type-mismatch error. -/
theorem runs_C2_witness :
    validateRun envW stC2w cfgB ("k") false = Except.error (RunError.alreadyExists ("k")) ∧
    validateRun envW stC2w cfgB ("k") true =
      Except.error (RunError.typeMismatch ("k") ("AConfig") ("BConfig")) := by
  have h := runs_C2 envW stC2w cfgB ("k") (by decide) (by decide)
  exact ⟨h.1, h.2 infoC2w (by decide) (by decide)⟩

/-- Claim C3: `update_run_key(old, new)` with `new` already registered raises
the "already exists" error before any mutation, so the whole state — in
particular the record stored under `old` — is unchanged. -/
theorem runs_C3 (env : Env) (st : DatasetState) (old new : String)
    (h : new ∈ listRunsAll st) :
    updateRunKey env st old new = (Except.error (RunError.alreadyExists new), st) ∧
    alLookup (updateRunKey env st old new).2.runDocs old = alLookup st.runDocs old := by
  have h1 : updateRunKey env st old new = (Except.error (RunError.alreadyExists new), st) := by
    simp [updateRunKey, h]
  exact ⟨h1, by rw [h1]⟩

/-- Witness for claim C3: renaming `old` to the occupied key `k` fails and
leaves the state untouched. -/
theorem runs_C3_witness :
    updateRunKey envW stC2w ("old") ("k") =
      (Except.error (RunError.alreadyExists ("k")), stC2w) ∧
    alLookup (updateRunKey envW stC2w ("old") ("k")).2.runDocs ("old") =
      alLookup stC2w.runDocs ("old") :=
  runs_C3 envW stC2w ("old") ("k") (by decide)

/-- Claim C4: after a successful `delete_run(samples, k)`, `k` is no longer
in the unfiltered `list_runs` and `has_cached_run_results(samples, k)` is
false. -/
theorem runs_C4 (env : Env) (st : DatasetState) (k : String) (st' : DatasetState)
    (h : deleteRun env st k = (Except.ok (), st')) :
    listRuns env st' none [] = Except.ok (listRunsAll st') ∧
    k ∉ listRunsAll st' ∧ hasCachedRunResults st' (some k) = false := by
  refine ⟨rfl, ?_⟩
  simp only [deleteRun] at h
  split at h
  · simp at h
  · injection h with h1 h2
    subst h2
    constructor
    · rw [mem_listRunsAll]
      exact not_mem_alKeys_alErase _ _
    · simp [hasCachedRunResults, alContains_alErase_self]

/-- Witness for claim C4: deleting the registered and cached key `k`. -/
theorem runs_C4_witness :
    listRuns envW stC4after none [] = Except.ok (listRunsAll stC4after) ∧
    ("k") ∉ listRunsAll stC4after ∧ hasCachedRunResults stC4after (some ("k")) = false :=
  runs_C4 envW stC4 ("k") stC4after (by decide)

/-- Claim C10: with `key=None`, `register_run`, `save_run_results` and
`update_run_config` all return immediately without error and without touching
the document store or the results cache. -/
theorem runs_C10 (env : Env) (st : DatasetState) (cfg : RunConfigV)
    (ow owr c : Bool) (rr : Option RunResultsV) :
    registerRun env st cfg none ow = (Except.ok (), st) ∧
    saveRunResults env st none rr owr c = (Except.ok (), st) ∧
    updateRunConfig env st none cfg = (Except.ok (), st) :=
  ⟨rfl, rfl, rfl⟩

/-- Claim C7: when deserializing a stored run's info (`get_run_info`) or its
results (`load_run_results`, on a cache miss) fails, the raised error is the
distinct version-skew error carrying both the stored and the running version
whenever the stored version differs from the running one, and the original
deserialization error when they coincide. -/
theorem runs_C7 :
    (∀ (env : Env) (st : DatasetState) (k : String) (doc : RunDoc) (e : RunError),
       alLookup st.runDocs k = some doc →
       runInfoFromDoc env doc = Except.error e →
       getRunInfo env st k =
         Except.error
           (if doc.version = some env.version then e
            else RunError.versionSkew k doc.version env.version)) ∧
    (∀ (env : Env) (st : DatasetState) (k : String) (c : Bool) (doc : RunDoc)
       (blob : AssocList String) (info : RunInfoV) (e : RunError),
       alContains st.resultsCache k = false →
       alLookup st.runDocs k = some doc →
       doc.results = some blob →
       getRunInfo env st k = Except.ok info →
       runResultsFromDict env blob info.config k = Except.error e →
       loadRunResults env st k c =
         (Except.error
            (if doc.version = some env.version then e
             else RunError.versionSkew k doc.version env.version), st)) := by
  constructor
  · intro env st k doc e hdoc he
    simp [getRunInfo, hdoc, he, versionGate]
  · intro env st k c doc blob info e hc hdoc hres hinfo he
    have hcond : (c && alContains st.resultsCache k) = false := by simp [hc]
    simp [loadRunResults, hcond, hdoc, hres, hinfo, he, versionGate]

/-- Witness for claim C7: a run written by fiftyone 0.9 read under fiftyone
1.0 surfaces the version-skew error from `get_run_info` (unloadable config)
and from `load_run_results` (unloadable results blob). -/
theorem runs_C7_witness :
    getRunInfo envW stC7a ("k") =
      Except.error (RunError.versionSkew ("k") (some ("0.9")) ("1.0")) ∧
    loadRunResults envW stC7b ("k") true =
      (Except.error (RunError.versionSkew ("k") (some ("0.9")) ("1.0")), stC7b) := by
  constructor
  · have h := runs_C7.1 envW stC7a ("k") docC7a (RunError.keyError ("method"))
      (by decide) (by decide)
    exact h.trans (by decide)
  · have h := runs_C7.2 envW stC7b ("k") true docC7b blobC7 infoC7
      (RunError.keyError ("cls")) (by decide) (by decide) (by decide) (by decide) (by decide)
    exact h.trans (by decide)

/-- Claim C8: a successful `RunResults.save()` persists the serialized
results under the run's key (always overwriting), and preserves
cache-presence: a previously cached key stays cached (now holding the saved
object), a previously uncached key stays uncached; with a `None` key the call
is a no-op. -/
theorem runs_C8 (env : Env) (st : DatasetState) (r : RunResultsV) (st' : DatasetState)
    (h : RunResultsV.save env st r = (Except.ok (), st')) :
    (∀ k, r.key = some k →
       alContains st'.resultsCache k = alContains st.resultsCache k ∧
       (alContains st.resultsCache k = true → alLookup st'.resultsCache k = some (some r)) ∧
       (alContains st.resultsCache k = false → alLookup st'.resultsCache k = none) ∧
       ∃ doc1, alLookup st'.runDocs k = some doc1 ∧
         doc1.results = some (RunResultsV.serialize r)) ∧
    (r.key = none → st' = st) := by
  cases hk : r.key with
  | none =>
    refine ⟨?_, fun _ => ?_⟩
    · intro k hkk; cases hkk
    · simp only [RunResultsV.save, saveRunResults, hk] at h
      injection h with h1 h2
      exact h2.symm
  | some k0 =>
    refine ⟨?_, ?_⟩
    · intro k hkk
      injection hkk with hkk
      subst hkk
      simp only [RunResultsV.save, saveRunResults, hasCachedRunResults, hk] at h
      split at h
      · simp at h
      · simp only [Bool.not_true, Bool.and_false, Bool.false_eq_true, if_false] at h
        injection h with h1 h2
        subst h2
        cases hcache : alContains st.resultsCache k0 with
        | true =>
          refine ⟨?_, fun _ => ?_, fun hcf => ?_, ⟨_, alLookup_alSet_self _ _ _, rfl⟩⟩
          · simp [alContains, alLookup_alSet_self]
          · simp [alLookup_alSet_self]
          · cases hcf
        | false =>
          refine ⟨?_, fun hct => ?_, fun _ => ?_, ⟨_, alLookup_alSet_self _ _ _, rfl⟩⟩
          · simpa using hcache
          · cases hct
          · simpa using alLookup_eq_none_of_contains_false hcache
    · intro hnone; cases hnone

/-- Witness for claim C8: saving results whose key `k` is registered and
already cached. -/
theorem runs_C8_witness :
    (∀ k, resW.key = some k →
       alContains stC8after.resultsCache k = alContains stC4.resultsCache k ∧
       (alContains stC4.resultsCache k = true →
         alLookup stC8after.resultsCache k = some (some resW)) ∧
       (alContains stC4.resultsCache k = false →
         alLookup stC8after.resultsCache k = none) ∧
       ∃ doc1, alLookup stC8after.runDocs k = some doc1 ∧
         doc1.results = some (RunResultsV.serialize resW)) ∧
    (resW.key = none → stC8after = stC4) :=
  runs_C8 envW stC4 resW stC8after (by decide)

/-- Claim C9: any list `list_runs` returns — under any combination of type
and kwargs filters — is sorted in ascending string order. -/
theorem runs_C9 (env : Env) (st : DatasetState) (type? : Option String)
    (kwargs : AssocList (Option String)) (l : List String)
    (h : listRuns env st type? kwargs = Except.ok l) :
    List.Sorted (· ≤ ·) l := by
  simp only [listRuns] at h
  split at h
  · exact Except.noConfusion h
  · injection h with h1
    exact h1 ▸ List.sorted_insertionSort _ _

/-- Witness for claim C9: listing with a type filter `A` and a kwargs filter
on `method`. -/
theorem runs_C9_witness : List.Sorted (· ≤ ·) (["k"] : List String) :=
  runs_C9 envW stC4 (some ("A")) [(("method"), some ("m"))] (["k"]) (by decide)

/-! ## 3D scene-node theorems -/

theorem stl_suffix_not_obj (path : String) (h : pyEndsWith path (".stl") = true) :
    pyEndsWith (pyLower path) (".obj") = false := by
  have hstl : (".stl").data <:+ path.data := by
    simpa [pyEndsWith] using h
  rw [Bool.eq_false_iff]
  intro hobj
  have hobj2 : (".obj").data <:+ (pyLower path).data := by
    simpa [pyEndsWith] using hobj
  have hstl2 : (".stl").data <:+ (pyLower path).data := by
    have hm := List.IsSuffix.map Char.toLower hstl
    have he : (".stl").data.map Char.toLower = (".stl").data := by decide
    rw [pyLower_data]
    rwa [he] at hm
  have hsub : (".obj").data <:+ (".stl").data :=
    List.suffix_of_suffix_length_le hobj2 hstl2 (by decide)
  have heq : (".obj").data = (".stl").data := hsub.eq_of_length (by decide)
  exact absurd heq (by decide)

/-- Claim C6: each mesh and point-cloud constructor succeeds exactly when the
path, lower-cased, ends with the subtype's required extension
(`.obj`/`.fbx`/`.gltf`|`.glb`/`.ply`/`.stl`/`.pcd`), and in particular
`ObjMesh` on any path ending in `.stl` always raises the validation error. -/
theorem threed_C6 (name path : String) :
    (objMeshInit name path none).isOk = pyEndsWith (pyLower path) (".obj") ∧
    (fbxMeshInit name path).isOk = pyEndsWith (pyLower path) (".fbx") ∧
    (gltfMeshInit name path).isOk =
      (pyEndsWith (pyLower path) (".gltf") || pyEndsWith (pyLower path) (".glb")) ∧
    (plyMeshInit name path).isOk = pyEndsWith (pyLower path) (".ply") ∧
    (stlMeshInit name path).isOk = pyEndsWith (pyLower path) (".stl") ∧
    (pointCloudInit name path none false).isOk = pyEndsWith (pyLower path) (".pcd") ∧
    (pyEndsWith path (".stl") = true →
      objMeshInit name path none = Except.error ("OBJ mesh must be a .obj file")) := by
  refine ⟨?_, ?_, ?_, ?_, ?_, ?_, ?_⟩
  · cases hx : pyEndsWith (pyLower path) (".obj") <;>
      simp [objMeshInit, hx, Except.isOk, Except.toBool]
  · cases hx : pyEndsWith (pyLower path) (".fbx") <;>
      simp [fbxMeshInit, hx, Except.isOk, Except.toBool]
  · cases hx : pyEndsWith (pyLower path) (".gltf") <;>
      cases hy : pyEndsWith (pyLower path) (".glb") <;>
        simp [gltfMeshInit, hx, hy, Except.isOk, Except.toBool]
  · cases hx : pyEndsWith (pyLower path) (".ply") <;>
      simp [plyMeshInit, hx, Except.isOk, Except.toBool]
  · cases hx : pyEndsWith (pyLower path) (".stl") <;>
      simp [stlMeshInit, hx, Except.isOk, Except.toBool]
  · cases hx : pyEndsWith (pyLower path) (".pcd") <;>
      simp [pointCloudInit, hx, Except.isOk, Except.toBool]
  · intro h
    simp [objMeshInit, stl_suffix_not_obj path h]

/-- Witness for claim C6: `ObjMesh(path="foo.stl")` raises the validation
error. -/
theorem threed_C6_witness :
    objMeshInit ("n") ("foo.stl") none = Except.error ("OBJ mesh must be a .obj file") :=
  (threed_C6 ("n") ("foo.stl")).2.2.2.2.2.2 (by decide)

/-- Claim C5 (amended): the base object's fields and every field name emitted
by the light and point-cloud `_to_dict_extra` contributions are camelCase,
but each mesh subtype emits snake_case field names (`obj_path`, `mtl_path`,
`fbx_path`, `gltf_path`, `ply_path`, `stl_path`), so the camelCase contract
does not hold for mesh nodes. -/
theorem threed_C5 (al : LightV) (dl : DirectionalLightV) (pl : PointLightV)
    (sl : SpotLightV) (pc : PointCloudV) (om : ObjMeshV) (fm : FBXMeshV)
    (gm : GLTFMeshV) (pm : PlyMeshV) (sm : StlMeshV) :
    object3DBaseDictKeys.all isCamelCase = true ∧
    (nodeDictKeys (lightToDictExtra al)).all isCamelCase = true ∧
    (nodeDictKeys (directionalLightToDictExtra dl)).all isCamelCase = true ∧
    (nodeDictKeys (pointLightToDictExtra pl)).all isCamelCase = true ∧
    (nodeDictKeys (spotLightToDictExtra sl)).all isCamelCase = true ∧
    (nodeDictKeys (pointCloudToDictExtra pc)).all isCamelCase = true ∧
    (objMeshToDictExtra om).map Prod.fst = ["obj_path", "mtl_path"] ∧
    (fbxMeshToDictExtra fm).map Prod.fst = ["fbx_path"] ∧
    (gltfMeshToDictExtra gm).map Prod.fst = ["gltf_path"] ∧
    (plyMeshToDictExtra pm).map Prod.fst = ["ply_path"] ∧
    (stlMeshToDictExtra sm).map Prod.fst = ["stl_path"] ∧
    (["obj_path", "mtl_path", "fbx_path", "gltf_path", "ply_path", "stl_path"] :
        List String).all (fun s => !(isCamelCase s)) = true := by
  obtain ⟨pcn, pcp, pcdm, pcf, pre⟩ := pc
  have h1 : (["name", "visible", "position", "quaternion", "scale"] :
      List String).all isCamelCase = true := by decide
  have h2 : (["name", "visible", "position", "quaternion", "scale", "color",
      "intensity"] : List String).all isCamelCase = true := by decide
  have h3 : (["name", "visible", "position", "quaternion", "scale", "color",
      "intensity", "target"] : List String).all isCamelCase = true := by decide
  have h4 : (["name", "visible", "position", "quaternion", "scale", "color",
      "intensity", "distance", "decay"] : List String).all isCamelCase = true := by decide
  have h5 : (["name", "visible", "position", "quaternion", "scale", "color",
      "intensity", "target", "distance", "decay", "angle", "penumbra"] :
      List String).all isCamelCase = true := by decide
  have h6a : (["name", "visible", "position", "quaternion", "scale", "pcdPath",
      "defaultMaterial", "flagForProjection"] : List String).all isCamelCase = true := by
    decide
  have h6b : (["name", "visible", "position", "quaternion", "scale", "pcdPath",
      "defaultMaterial", "flagForProjection", "preTransformedPcdPath"] :
      List String).all isCamelCase = true := by decide
  have hs : (["obj_path", "mtl_path", "fbx_path", "gltf_path", "ply_path",
      "stl_path"] : List String).all (fun s => !(isCamelCase s)) = true := by decide
  cases pre with
  | none => exact ⟨h1, h2, h3, h4, h5, h6a, rfl, rfl, rfl, rfl, rfl, hs⟩
  | some q => exact ⟨h1, h2, h3, h4, h5, h6b, rfl, rfl, rfl, rfl, rfl, hs⟩

/-- Counterexample for claim C5 as stated: a legally constructed `ObjMesh`
emits the non-camelCase field name `obj_path`. -/
theorem threed_C5_cex :
    objMeshInit ("cube") ("cube.obj") none =
      Except.ok { name := "cube", obj_path := "cube.obj", mtl_path := none } ∧
    ("obj_path") ∈ nodeDictKeys
      (objMeshToDictExtra { name := "cube", obj_path := "cube.obj", mtl_path := none }) ∧
    isCamelCase ("obj_path") = false := by
  decide
